import Mathlib

/-!
Verification development for the llmschat repository: a shallow embedding of
its data model (database/db.go), LLM client layer (package llm) and chat
session manager (main.go), with theorems settling the specification claims.
-/

namespace LlmsChat

/-- Row of the `companies` table (database/db.go, `type Company`). -/
structure Company where
  id : Nat
  name : String
  baseURL : String
deriving Repr, DecidableEq

/-- Row of the `models` table (database/db.go, `type Model`). -/
structure Model where
  id : Nat
  name : String
  companyID : Nat
deriving Repr, DecidableEq

/-- Row of the `settings` table (database/db.go, `type Settings`). -/
structure Settings where
  id : Nat
  name : String
  companyID : Nat
  modelID : Nat
  apiKey : String
deriving Repr, DecidableEq

/-- State of the `settings` table: its rows plus the AUTOINCREMENT counter
used for the `id` column. -/
structure SettingsTable where
  rows : List Settings
  nextId : Nat
deriving Repr, DecidableEq

/-- `database.SaveSettings`: first `DELETE FROM settings`, then
`INSERT INTO settings (name, company_id, model_id, api_key) VALUES (?,?,?,?)`. -/
def SaveSettings (tbl : SettingsTable) (name : String) (companyID modelID : Nat)
    (apiKey : String) : SettingsTable :=
  let afterDelete : SettingsTable := { rows := [], nextId := tbl.nextId }
  { rows := afterDelete.rows ++
      [{ id := afterDelete.nextId, name := name, companyID := companyID,
         modelID := modelID, apiKey := apiKey }],
    nextId := afterDelete.nextId + 1 }

/-- `database.GetSettings`: `SELECT ... FROM settings LIMIT 1`; on
`sql.ErrNoRows` it returns `(nil, nil)`, modelled as `.ok none`; a row is
returned as `.ok (some row)`; any other query error would be `.error`. -/
def GetSettings (tbl : SettingsTable) : Except String (Option Settings) :=
  match tbl.rows.head? with
  | none => .ok none
  | some s => .ok (some s)

/-- One entry of the persisted chat-message history
(`sqlite3.SqliteChatMessageHistory`: `AddUserMessage` / `AddAIMessage`). -/
inductive HistEntry where
  | user (text : String)
  | ai (text : String)
deriving Repr, DecidableEq

/-- Whether a history entry is an AI message. -/
def HistEntry.isAIMessage : HistEntry → Bool
  | .user _ => false
  | .ai _ => true

/-- Outcomes of the external calls a blocking `Chat` makes, in program order:
the history write of the user message, the provider call, and the history
write of the AI response.  `none` means the call succeeded. -/
structure ChatEnv where
  addUserErr : Option String
  callResult : Except String String
  addAIErr : Option String
deriving Repr

/-- Outcomes of the external calls a `StreamChat` goroutine makes: the history
write of the user message, the chunks the provider delivers to the streaming
callback before `GenerateContent` returns, and the error `GenerateContent`
returns (if any). -/
structure StreamEnv where
  addUserErr : Option String
  chunks : List String
  genErr : Option String
deriving Repr, DecidableEq

/-- `openAIClient.Chat`: add the user message to history (failure aborts),
call the provider (failure aborts), add the AI response to history (failure
aborts), return the completion.  Result: the returned value and the final
persisted history. -/
def openAIChat (env : ChatEnv) (hist : List HistEntry) (prompt : String) :
    Except String String × List HistEntry :=
  match env.addUserErr with
  | some e => (.error ("failed to save user message: " ++ e), hist)
  | none =>
    let hist1 := hist ++ [.user prompt]
    match env.callResult with
    | .error e => (.error ("openai chat error: " ++ e), hist1)
    | .ok completion =>
      match env.addAIErr with
      | some e => (.error ("failed to save AI response: " ++ e), hist1)
      | none => (.ok completion, hist1 ++ [.ai completion])

/-- `anthropicClient.Chat`: identical to `openAIChat` except for the error
message of a failed provider call. -/
def anthropicChat (env : ChatEnv) (hist : List HistEntry) (prompt : String) :
    Except String String × List HistEntry :=
  match env.addUserErr with
  | some e => (.error ("failed to save user message: " ++ e), hist)
  | none =>
    let hist1 := hist ++ [.user prompt]
    match env.callResult with
    | .error e => (.error ("anthropic chat error: " ++ e), hist1)
    | .ok completion =>
      match env.addAIErr with
      | some e => (.error ("failed to save AI response: " ++ e), hist1)
      | none => (.ok completion, hist1 ++ [.ai completion])

/-- Body of the goroutine of `openAIClient.StreamChat` (the channel is closed
by `defer close(stream)` exactly when this body finishes).  Result: the full
sequence of chunks sent on the channel before it closes, and the final
persisted history.  A history-write failure emits its error text as the only
chunk; a provider error emits its error text as one final chunk after the
chunks already delivered; on success the chunks are delivered unchanged and
nothing further is written to history. -/
def openAIStreamChat (env : StreamEnv) (hist : List HistEntry) (prompt : String) :
    List String × List HistEntry :=
  match env.addUserErr with
  | some e => (["failed to save user message: " ++ e], hist)
  | none =>
    let hist1 := hist ++ [.user prompt]
    match env.genErr with
    | some e => (env.chunks ++ ["openai chat error: " ++ e], hist1)
    | none => (env.chunks, hist1)

/-- Body of the goroutine of `anthropicClient.StreamChat`; identical to
`openAIStreamChat` except for the provider-error chunk text. -/
def anthropicStreamChat (env : StreamEnv) (hist : List HistEntry) (prompt : String) :
    List String × List HistEntry :=
  match env.addUserErr with
  | some e => (["failed to save user message: " ++ e], hist)
  | none =>
    let hist1 := hist ++ [.user prompt]
    match env.genErr with
    | some e => (env.chunks ++ ["anthropic chat error: " ++ e], hist1)
    | none => (env.chunks, hist1)

/-- The immediate return of `openAIClient.StreamChat` is always
`return stream, nil`: the pair of the (eventual) emitted sequence and a `nil`
error — errors are never reported through the second component. -/
def openAIStreamChatCall (env : StreamEnv) (hist : List HistEntry)
    (prompt : String) : (List String × List HistEntry) × Option String :=
  (openAIStreamChat env hist prompt, none)

/-- The immediate return of `anthropicClient.StreamChat` is always
`return stream, nil`. -/
def anthropicStreamChatCall (env : StreamEnv) (hist : List HistEntry)
    (prompt : String) : (List String × List HistEntry) × Option String :=
  (anthropicStreamChat env hist prompt, none)

/-- Which concrete client struct `llm.NewClient` returned: `openAIClient` (also
used for Deepseek, with a base-URL override) or `anthropicClient`. -/
inductive ClientKind where
  | openAI
  | anthropic
deriving Repr, DecidableEq

/-- The client value `llm.NewClient` builds: the struct kind, the model name it
was configured with, and the base-URL override (set only for Deepseek). -/
structure ClientValue where
  kind : ClientKind
  model : String
  baseURL : Option String
deriving Repr, DecidableEq

/-- Outcomes of the external calls `llm.NewClient` makes:
`database.GetSettings`, `database.GetCompanies`, and the provider SDK
constructors `openai.New` / `anthropic.New` (`none` = construction succeeds). -/
structure NewClientEnv where
  settingsResult : Except String (Option Settings)
  companiesResult : Except String (List Company)
  openaiNewErr : Option String
  anthropicNewErr : Option String
deriving Repr

/-- The `companyInfo` lookup in `llm.NewClient`: the first company whose `ID`
equals `settings.CompanyID`; if none matches, `companyInfo` keeps Go's zero
value `Company{}`. -/
def lookupCompany (companies : List Company) (companyID : Nat) : Company :=
  (companies.find? (fun c => c.id == companyID)).getD
    { id := 0, name := "", baseURL := "" }

/-- `llm.NewClient`: read settings (error or absence aborts), read the company
catalog, look up the configured company, then dispatch on the company name:
OpenAI and Anthropic build their SDK client, Deepseek builds an OpenAI client
with the company base URL, and every other name fails with
`unsupported company: <name>`. -/
def NewClient (env : NewClientEnv) (modelName : String) :
    Except String ClientValue :=
  match env.settingsResult with
  | .error e => .error ("failed to get settings: " ++ e)
  | .ok none => .error "no settings found, please configure your settings first"
  | .ok (some settings) =>
    match env.companiesResult with
    | .error e => .error ("failed to get companies: " ++ e)
    | .ok companies =>
      let companyInfo := lookupCompany companies settings.companyID
      if companyInfo.name = "OpenAI" then
        match env.openaiNewErr with
        | some e => .error ("failed to create OpenAI client: " ++ e)
        | none => .ok { kind := .openAI, model := modelName, baseURL := none }
      else if companyInfo.name = "Anthropic" then
        match env.anthropicNewErr with
        | some e => .error ("failed to create Anthropic client: " ++ e)
        | none => .ok { kind := .anthropic, model := modelName, baseURL := none }
      else if companyInfo.name = "Deepseek" then
        match env.openaiNewErr with
        | some e => .error ("failed to create Deepseek client: " ++ e)
        | none =>
          .ok { kind := .openAI, model := modelName,
                baseURL := some companyInfo.baseURL }
      else
        .error ("unsupported company: " ++ companyInfo.name)

/-- Dispatch of `client.StreamChat` over the struct `NewClient` returned. -/
def ClientValue.streamChatOf (c : ClientValue) (senv : StreamEnv)
    (hist : List HistEntry) (prompt : String) : List String × List HistEntry :=
  match c.kind with
  | .openAI => openAIStreamChat senv hist prompt
  | .anthropic => anthropicStreamChat senv hist prompt

/-- `llm.GetResponseStream`: build the client; on failure return a fresh
channel that is closed immediately (so it emits zero chunks) together with the
error; on success return the client's stream (whose eventual error component
is `nil`).  Result: ((emitted chunk sequence, final history), returned error). -/
def GetResponseStream (env : NewClientEnv) (modelName : String)
    (senv : StreamEnv) (hist : List HistEntry) (prompt : String) :
    (List String × List HistEntry) × Option String :=
  match NewClient env modelName with
  | .error e => (([], hist), some e)
  | .ok c => ((c.streamChatOf senv hist prompt), none)

/-- `main.ChatMessage`: one turn of a session transcript. -/
structure ChatMessage where
  text : String
  sender : String
  isAI : Bool
deriving Repr, DecidableEq

/-- `main.Chat`: one session, with its identity, title and ordered turn list. -/
structure Chat where
  id : Nat
  title : String
  messages : List ChatMessage
deriving Repr, DecidableEq

/-- The default title `fmt.Sprintf("Chat %d", id)` a chat is created with. -/
def defaultTitle (id : Nat) : String := "Chat " ++ toString id

/-- `strings.Split` for a single-character separator (every delimiter used by
`AddMessage` is a one-character string): the text split around each occurrence
of the separator.  As in Go, the result always has at least one part; splitting
the empty text yields one empty part. -/
def splitOnChar (d : Char) : List Char → List (List Char)
  | [] => [[]]
  | c :: cs =>
    let rest := splitOnChar d cs
    if c = d then [] :: rest
    else
      match rest with
      | [] => [[c]]
      | p :: ps => (c :: p) :: ps

/-- The delimiter loop of `AddMessage` (main.go): walk
`delimiters := ["?", ".", "!", "\n"]`; at each delimiter, if
`strings.Split(text, delimiter)` has at least one part, set the title to the
first part and break; otherwise try the next delimiter. -/
def titleLoop (text : List Char) : List Char → List Char → List Char
  | title, [] => title
  | title, d :: ds =>
    let parts := splitOnChar d text
    if 0 < parts.length then parts.headD title
    else titleLoop text title ds

/-- Title derivation in `AddMessage` over the character list of the text: run
the delimiter loop starting from the whole text, then truncate: a result
longer than 30 becomes its first 27 characters followed by `"..."`.  (Go
indexes bytes; for the ASCII inputs of the properties below, byte and
character counts coincide.) -/
def deriveTitleChars (text : List Char) : List Char :=
  let title := titleLoop text text ['?', '.', '!', '\n']
  if title.length > 30 then title.take 27 ++ ['.', '.', '.']
  else title

/-- Title derivation in `AddMessage`, as a `String` transformation. -/
def deriveTitle (text : String) : String :=
  String.mk (deriveTitleChars text.data)

/-- The per-chat effect of `main.AddMessage` on the found chat: append the new
message to its turn list, and, when the message is from the user and the title
is still the default, derive a new title from the message text. -/
def addMessageToChat (c : Chat) (text sender : String) (isAI : Bool) : Chat :=
  let c1 : Chat :=
    { c with messages := c.messages ++ [{ text := text, sender := sender, isAI := isAI }] }
  if !isAI && c1.title == defaultTitle c1.id then
    { c1 with title := deriveTitle text }
  else c1

/-- `main.AddMessage`: find the first chat whose `ID` matches and apply the
per-chat effect; when no chat matches, no turn list changes. -/
def AddMessage : List Chat → Nat → String → String → Bool → List Chat
  | [], _, _, _, _ => []
  | c :: cs, chatID, text, sender, isAI =>
    if c.id == chatID then addMessageToChat c text sender isAI :: cs
    else c :: AddMessage cs chatID text sender isAI

/-- The chunk-consumption loop of `sendFunc` (main.go):
`fullText := ""`, then `for chunk := range stream { fullText += chunk }`. -/
def streamLoop (chunks : List String) : String :=
  chunks.foldl (fun fullText chunk => fullText ++ chunk) ""

/-- End of the streaming goroutine in `sendFunc`: once the stream closes, the
accumulated text is stored as an AI message appended to the owning session's
message list. -/
def finishStream (chat : Chat) (chunks : List String) : Chat :=
  { chat with messages :=
      chat.messages ++ [{ text := streamLoop chunks, sender := "AI", isAI := true }] }

/-- The error branch of the streaming goroutine in `sendFunc`: when
`llm.GetResponseStream` returns an error, `AddMessage(currentChat.ID,
fmt.Sprintf("Error: %v", err), "System", true)` runs and the goroutine
returns. -/
def handleStreamError (chats : List Chat) (chatID : Nat) (err : String) :
    List Chat :=
  AddMessage chats chatID ("Error: " ++ err) "System" true

/-- What the synchronous part of one `sendFunc` invocation did: the resulting
chat list, whether the input box was cleared, and whether a provider request
(the streaming goroutine) was started. -/
structure SendResult where
  chats : List Chat
  inputCleared : Bool
  requestIssued : Bool
deriving Repr, DecidableEq

/-- `sendFunc` (main.go): if no chat is current, return; if the input text is
non-empty, append the user turn via `AddMessage`, clear the input, and spawn
the goroutine that issues the provider request; otherwise do nothing. -/
def sendFunc (chats : List Chat) (currentChat : Option Nat) (input : String) :
    SendResult :=
  match currentChat with
  | none => { chats := chats, inputCleared := false, requestIssued := false }
  | some chatID =>
    if input ≠ "" then
      { chats := AddMessage chats chatID input "You" false,
        inputCleared := true, requestIssued := true }
    else
      { chats := chats, inputCleared := false, requestIssued := false }

/-- C5: after two successive `SaveSettings` calls, the settings table holds
exactly one row, and that row carries the name, company, model and API key
passed to the second call. -/
theorem saveSettings_overwrite (tbl : SettingsTable) (n1 n2 : String)
    (c1 m1 c2 m2 : Nat) (k1 k2 : String) :
    (SaveSettings (SaveSettings tbl n1 c1 m1 k1) n2 c2 m2 k2).rows.length = 1 ∧
    ∃ i, (SaveSettings (SaveSettings tbl n1 c1 m1 k1) n2 c2 m2 k2).rows =
      [{ id := i, name := n2, companyID := c2, modelID := m2, apiKey := k2 }] :=
  ⟨rfl, ⟨tbl.nextId + 1, rfl⟩⟩

/-- C10: when the settings table has no row, `GetSettings` reports the absence
as a `nil` settings pointer with a `nil` error, never as an error. -/
theorem getSettings_empty (tbl : SettingsTable) (h : tbl.rows = []) :
    GetSettings tbl = .ok none := by
  simp [GetSettings, h]

/-- Witness for `getSettings_empty` at the empty table. -/
theorem getSettings_empty_witness :
    GetSettings { rows := [], nextId := 0 } = .ok none :=
  getSettings_empty { rows := [], nextId := 0 } rfl

/-- C6: when the configured company resolves to a name outside the supported
set (OpenAI, Anthropic, Deepseek), `NewClient` returns the descriptive error
`unsupported company: <name>` and no client value. -/
theorem newClient_unsupported (env : NewClientEnv) (s : Settings)
    (cs : List Company) (modelName : String)
    (hs : env.settingsResult = .ok (some s))
    (hc : env.companiesResult = .ok cs)
    (h1 : (lookupCompany cs s.companyID).name ≠ "OpenAI")
    (h2 : (lookupCompany cs s.companyID).name ≠ "Anthropic")
    (h3 : (lookupCompany cs s.companyID).name ≠ "Deepseek") :
    NewClient env modelName =
      .error ("unsupported company: " ++ (lookupCompany cs s.companyID).name) := by
  simp [NewClient, hs, hc, h1, h2, h3]

/-- Witness for `newClient_unsupported`: a configuration pointing at the
catalog company Google fails construction with the descriptive error. -/
theorem newClient_unsupported_witness :
    NewClient
      { settingsResult := .ok (some
          { id := 1, name := "me", companyID := 3, modelID := 7, apiKey := "k" }),
        companiesResult := .ok
          [{ id := 3, name := "Google",
             baseURL := "https://generativelanguage.googleapis.com" }],
        openaiNewErr := none, anthropicNewErr := none } "gemini-pro" =
      .error ("unsupported company: " ++ "Google") :=
  newClient_unsupported
    { settingsResult := .ok (some
        { id := 1, name := "me", companyID := 3, modelID := 7, apiKey := "k" }),
      companiesResult := .ok
        [{ id := 3, name := "Google",
           baseURL := "https://generativelanguage.googleapis.com" }],
      openaiNewErr := none, anthropicNewErr := none }
    { id := 1, name := "me", companyID := 3, modelID := 7, apiKey := "k" }
    [{ id := 3, name := "Google",
       baseURL := "https://generativelanguage.googleapis.com" }]
    "gemini-pro" rfl rfl (by decide) (by decide) (by decide)

/-- C9: when client construction fails, `GetResponseStream` returns the error
together with a closed stream that emits zero chunks (a consumer draining it
receives nothing), and the history is untouched. -/
theorem getResponseStream_construction_failure (env : NewClientEnv)
    (modelName : String) (senv : StreamEnv) (hist : List HistEntry)
    (prompt e : String) (h : NewClient env modelName = .error e) :
    GetResponseStream env modelName senv hist prompt = (([], hist), some e) := by
  simp [GetResponseStream, h]

/-- Witness for `getResponseStream_construction_failure`: with no settings row
configured, construction fails and the returned stream is empty. -/
theorem getResponseStream_construction_failure_witness :
    GetResponseStream
      { settingsResult := .ok none, companiesResult := .ok [],
        openaiNewErr := none, anthropicNewErr := none } "gpt-4"
      { addUserErr := none, chunks := ["never"], genErr := none } [] "hello" =
      (([], []), some "no settings found, please configure your settings first") :=
  getResponseStream_construction_failure _ _ _ _ _ _ rfl

/-- C4: the two examples of the spec do hold (split at the first `?`;
truncation of a long delimiter-free text to 27 characters plus `"..."`), but
the general sentence fails: the delimiter loop always breaks in its first
iteration because `strings.Split` never returns fewer than one part, so the
delimiters `"."`, `"!"` and `"\n"` are dead — on the user text
`"Hi. how are you"` submitted to a default-titled chat, the title becomes the
whole text instead of the claimed prefix `"Hi"`. -/
theorem deriveTitle_dead_delimiters :
    deriveTitle "Hello there? how are you" = "Hello there" ∧
    deriveTitle "abcdefghijklmnopqrstuvwxyzABCDEFG" =
      "abcdefghijklmnopqrstuvwxyzA" ++ "..." ∧
    deriveTitle "Hi. how are you" = "Hi. how are you" ∧
    AddMessage [{ id := 1, title := defaultTitle 1, messages := [] }] 1
        "Hi. how are you" "You" false =
      [{ id := 1, title := "Hi. how are you",
         messages := [{ text := "Hi. how are you", sender := "You",
                        isAI := false }] }] := by
  decide

/-- C7: submitting empty input changes nothing: the chat list (hence every
session's turn list) is untouched, the input box is not cleared, and no
provider request is started. -/
theorem sendFunc_empty_input (chats : List Chat) (currentChat : Option Nat) :
    sendFunc chats currentChat "" =
      { chats := chats, inputCleared := false, requestIssued := false } := by
  cases currentChat <;> simp [sendFunc]

/-- The accumulator loop of `sendFunc` concatenates the chunks in delivery
order: folding from the left with an accumulator equals the right-nested
concatenation c1 ++ (c2 ++ (... ++ "")). -/
theorem streamLoop_eq_concat (chunks : List String) :
    streamLoop chunks = chunks.foldr (fun c acc => c ++ acc) "" := by
  have key : ∀ (l : List String) (acc : String),
      l.foldl (fun fullText chunk => fullText ++ chunk) acc =
        acc ++ l.foldr (fun c a => c ++ a) "" := by
    intro l
    induction l with
    | nil => intro acc; simp [String.append_empty]
    | cons c cs ih =>
      intro acc
      simp only [List.foldl_cons, List.foldr_cons, ih (acc ++ c),
        String.append_assoc]
  simpa [String.empty_append] using key chunks ""

/-- C1: when a stream of chunks [c1..cn] ends, the owning session's transcript
gains exactly one final assistant turn, and its text is the concatenation
c1 ++ ... ++ cn in delivery order. -/
theorem finishStream_concat (chat : Chat) (chunks : List String) :
    (finishStream chat chunks).messages =
      chat.messages ++
        [{ text := chunks.foldr (fun c acc => c ++ acc) "", sender := "AI",
           isAI := true }] ∧
    (finishStream chat chunks).messages.length = chat.messages.length + 1 := by
  constructor
  · simp [finishStream, streamLoop_eq_concat]
  · simp [finishStream]

/-- The per-chat effect of `AddMessage` always appends exactly the new turn to
the found chat's message list (deriving the title never touches messages). -/
theorem addMessageToChat_messages (c : Chat) (text sender : String)
    (isAI : Bool) :
    (addMessageToChat c text sender isAI).messages =
      c.messages ++ [{ text := text, sender := sender, isAI := isAI }] := by
  dsimp only [addMessageToChat]
  split <;> rfl

/-- Every `AddMessage` call leaves each session's turn list either unchanged or
extended by exactly the one new turn at the end. -/
theorem addMessage_appends (chats : List Chat) (chatID : Nat)
    (text sender : String) (isAI : Bool) :
    List.Forall₂ (fun old new => new.messages = old.messages ∨
        new.messages = old.messages ++
          [{ text := text, sender := sender, isAI := isAI }])
      chats (AddMessage chats chatID text sender isAI) := by
  induction chats with
  | nil => exact List.Forall₂.nil
  | cons c cs ih =>
    by_cases h : (c.id == chatID) = true
    · rw [AddMessage, if_pos h]
      exact List.Forall₂.cons (Or.inr (addMessageToChat_messages c text sender isAI))
        (List.forall₂_same.2 (fun x _ => Or.inl rfl))
    · rw [AddMessage, if_neg h]
      exact List.Forall₂.cons (Or.inl rfl) ih

/-- C8: session turn lists are append-only.  A user/assistant `AddMessage`
leaves every existing turn list a prefix of the new one (unchanged, or with
exactly the one new turn appended); the failed-request branch appends at most
one system-authored error turn (`"Error: <err>"`, sender `System`) and removes
or reorders nothing; and the end of a stream appends exactly one assistant
turn. -/
theorem turnLists_append_only (chats : List Chat) (chatID : Nat)
    (text sender : String) (isAI : Bool) (err : String) (chat : Chat)
    (chunks : List String) :
    List.Forall₂ (fun old new => new.messages = old.messages ∨
        new.messages = old.messages ++
          [{ text := text, sender := sender, isAI := isAI }])
      chats (AddMessage chats chatID text sender isAI) ∧
    List.Forall₂ (fun old new => new.messages = old.messages ∨
        new.messages = old.messages ++
          [{ text := "Error: " ++ err, sender := "System", isAI := true }])
      chats (handleStreamError chats chatID err) ∧
    (finishStream chat chunks).messages =
      chat.messages ++
        [{ text := streamLoop chunks, sender := "AI", isAI := true }] :=
  ⟨addMessage_appends chats chatID text sender isAI,
   addMessage_appends chats chatID ("Error: " ++ err) "System" true, rfl⟩

/-- C2 counterexample: a successful `StreamChat` (one chunk `"Hello"`, no
errors) delivers the chunk but leaves the persisted history holding only the
user prompt — the aggregated response is never appended to history, so the
history is not `[user, ai]` and contains no AI entry at all. -/
theorem streamChat_drops_response_counterexample :
    openAIStreamChat { addUserErr := none, chunks := ["Hello"], genErr := none }
        [] "Hi" = (["Hello"], [HistEntry.user "Hi"]) ∧
    (openAIStreamChat { addUserErr := none, chunks := ["Hello"], genErr := none }
        [] "Hi").2 ≠ [HistEntry.user "Hi", HistEntry.ai "Hello"] ∧
    ((openAIStreamChat { addUserErr := none, chunks := ["Hello"], genErr := none }
        [] "Hi").2.all (fun entry => !entry.isAIMessage)) = true := by
  decide

/-- C2 amended: both `Chat` and `StreamChat` (OpenAI and Anthropic alike)
first append the user's prompt to persisted history and then issue the
provider request; on success the blocking `Chat` also appends the full
response to history, but `StreamChat` does not persist the aggregated
response — after a successful stream the history has gained only the user
prompt. -/
theorem chat_history_discipline (cenv : ChatEnv) (senv : StreamEnv)
    (hist : List HistEntry) (prompt completion : String)
    (hu : cenv.addUserErr = none) (hc : cenv.callResult = .ok completion)
    (ha : cenv.addAIErr = none) (hsu : senv.addUserErr = none)
    (hsg : senv.genErr = none) :
    openAIChat cenv hist prompt =
      (.ok completion, hist ++ [.user prompt] ++ [.ai completion]) ∧
    anthropicChat cenv hist prompt =
      (.ok completion, hist ++ [.user prompt] ++ [.ai completion]) ∧
    (openAIStreamChat senv hist prompt).2 = hist ++ [.user prompt] ∧
    (anthropicStreamChat senv hist prompt).2 = hist ++ [.user prompt] := by
  simp [openAIChat, anthropicChat, openAIStreamChat, anthropicStreamChat,
    hu, hc, ha, hsu, hsg]

/-- Witness for `chat_history_discipline` at concrete inputs. -/
theorem chat_history_discipline_witness :
    openAIChat { addUserErr := none, callResult := .ok "resp", addAIErr := none }
        [] "Hi" = (.ok "resp", [HistEntry.user "Hi", HistEntry.ai "resp"]) ∧
    anthropicChat { addUserErr := none, callResult := .ok "resp", addAIErr := none }
        [] "Hi" = (.ok "resp", [HistEntry.user "Hi", HistEntry.ai "resp"]) ∧
    (openAIStreamChat { addUserErr := none, chunks := ["re", "sp"], genErr := none }
        [] "Hi").2 = [HistEntry.user "Hi"] ∧
    (anthropicStreamChat { addUserErr := none, chunks := ["re", "sp"], genErr := none }
        [] "Hi").2 = [HistEntry.user "Hi"] :=
  chat_history_discipline
    { addUserErr := none, callResult := .ok "resp", addAIErr := none }
    { addUserErr := none, chunks := ["re", "sp"], genErr := none }
    [] "Hi" "resp" rfl rfl rfl rfl rfl

/-- C3: the emitted chunk sequence of a `StreamChat` goroutine is produced and
closed exactly once (the finite list below is everything sent before the
single deferred close), the immediate return never carries an error (no
mid-stream error signal exists), and errors are in-band: a failed history
append emits its error text as the only chunk; a failed provider request after
zero or more delivered chunks emits exactly one final sentinel chunk carrying
the error text after those chunks; a successful stream emits the chunks
unchanged. -/
theorem streamChat_single_close_sentinel (env : StreamEnv)
    (hist : List HistEntry) (prompt : String) :
    (openAIStreamChatCall env hist prompt).2 = none ∧
    (anthropicStreamChatCall env hist prompt).2 = none ∧
    (∀ e, env.addUserErr = some e →
      (openAIStreamChat env hist prompt).1 =
        ["failed to save user message: " ++ e] ∧
      (anthropicStreamChat env hist prompt).1 =
        ["failed to save user message: " ++ e]) ∧
    (∀ e, env.addUserErr = none → env.genErr = some e →
      (openAIStreamChat env hist prompt).1 =
        env.chunks ++ ["openai chat error: " ++ e] ∧
      (anthropicStreamChat env hist prompt).1 =
        env.chunks ++ ["anthropic chat error: " ++ e]) ∧
    (env.addUserErr = none → env.genErr = none →
      (openAIStreamChat env hist prompt).1 = env.chunks ∧
      (anthropicStreamChat env hist prompt).1 = env.chunks) := by
  refine ⟨rfl, rfl, ?_, ?_, ?_⟩
  · intro e he
    simp [openAIStreamChat, anthropicStreamChat, he]
  · intro e hu hg
    simp [openAIStreamChat, anthropicStreamChat, hu, hg]
  · intro hu hg
    simp [openAIStreamChat, anthropicStreamChat, hu, hg]

/-- Witness for `streamChat_single_close_sentinel`: a provider failure after
two delivered chunks yields those chunks followed by exactly one sentinel
error chunk. -/
theorem streamChat_single_close_sentinel_witness :
    (openAIStreamChat { addUserErr := none, chunks := ["a", "b"], genErr := some "boom" }
        [] "p").1 = ["a", "b"] ++ ["openai chat error: " ++ "boom"] ∧
    (anthropicStreamChat { addUserErr := none, chunks := ["a", "b"], genErr := some "boom" }
        [] "p").1 = ["a", "b"] ++ ["anthropic chat error: " ++ "boom"] :=
  (streamChat_single_close_sentinel
      { addUserErr := none, chunks := ["a", "b"], genErr := some "boom" }
      [] "p").2.2.2.1 "boom" rfl rfl

end LlmsChat
